import Mathlib

/-!
Verification of `connection.py` from avahe-kellenberger/irc-api.

The module defines a `Connection` class (socket lifecycle, background
receive loop, CRLF framing, listener dispatch) and a `MessageListener`
class (a pair of callbacks: an accept predicate and a receive handler).

We shallowly embed the module: Python `bytes` become `List Nat`
(byte values), Python `str` becomes `List Char`, the mutable
`Connection` object becomes an explicit state record, the socket and
the peer are modelled by the finite sequence of byte buffers that
successive `recv` calls return, and callbacks that may raise are
modelled with `Except`.
-/

namespace IrcApi

/-- Python `data.split(b"\r\n")` for `data : bytes`: split on every
(leftmost-first, non-overlapping) occurrence of the two-byte
separator CR (13) LF (10).  `splitCRLF b"" = [b""]`, and a trailing
separator yields a trailing empty segment, exactly as in Python. -/
def splitCRLF : List Nat → List (List Nat)
  | [] => [[]]
  | 13 :: 10 :: rest => [] :: splitCRLF rest
  | b :: rest =>
    match splitCRLF rest with
    | [] => [[b]]
    | s :: ss => (b :: s) :: ss

/-- The bytes of `data` strictly before the first CR LF occurrence
(the whole of `data` when no CR LF occurs). -/
def firstSeg : List Nat → List Nat
  | [] => []
  | 13 :: 10 :: _ => []
  | b :: rest => b :: firstSeg rest

/-- `Connection._process_data`: the default decode hook is the
identity, returning the raw bytes (`return data`). -/
def process_data (data : List Nat) : List Nat := data

/-- `Connection.__listen` (default decode hook, dispatch effect
abstracted): the loop runs while the alive flag is true, each
iteration consuming one `recv` result from `reads`.  A non-empty read
is split on CR LF and — as written in the source, `split(b"\r\n")[:1]`
— only the FIRST segment is passed to `_process_data` and dispatched.
An empty read clears the alive flag, so the loop terminates and later
reads are never consumed.  The result is the final alive flag together
with the list of objects handed to `__dispatch_listeners`, in order.
If `reads` runs out while alive, the real loop would block in `recv`;
we return the state at that blocking point. -/
def listen : List (List Nat) → Bool → Bool × List (List Nat)
  | _, false => (false, [])
  | [], true => (true, [])
  | data :: rest, true =>
    if data ≠ [] then
      let out := listen rest true
      (out.1, ((splitCRLF data).take 1).map process_data ++ out.2)
    else
      (false, [])

/-- State of the private socket attribute: `None` at construction,
then an open handle after `socket.socket(...)`, and a closed handle
after `close()`.  Handles are identified by a `Nat` tag. -/
inductive SockState
  | noSock : SockState
  | openSock : Nat → SockState
  | closedSock : Nat → SockState
deriving DecidableEq

/-- Effect of `self.__socket.close()` on the socket attribute. -/
def SockState.close : SockState → SockState
  | SockState.openSock h => SockState.closedSock h
  | s => s

/-- The mutable attributes of a `Connection` object that `connect`,
`disconnect`, `add_listener` and `remove_listener` read or write.
Listeners live in a Python `set` with identity-based membership; we
represent them by `Nat` identities and the set by a duplicate-free
list.  The listen-thread handle has no observable state of its own
(the thread's behaviour is modelled by `listen`), so it is omitted. -/
structure Connection where
  sock : SockState
  is_connection_alive : Bool
  listeners : List Nat
deriving DecidableEq

/-- `Connection.__init__`: no socket, not alive, no listeners. -/
def Connection.init : Connection :=
  { sock := SockState.noSock, is_connection_alive := false, listeners := [] }

/-- `Connection.connect`.  The environment is modelled by the handle
`h` of the freshly created socket and by `attempt`, the outcome of
`settimeout`/`connect` on it (`Except.error exc` models a raised
`socket.error` with message `exc`).  Returns the updated object, the
boolean result, and the list of lines printed.  If already alive the
method returns `False` and touches nothing; on a successful attempt it
marks alive and starts the listen thread (modelled separately by
`listen`); on `socket.error` it prints the message, marks not-alive
and returns the flag (`False`).  The model is a total function: no
exception escapes `connect`, exactly as in the source. -/
def connect (c : Connection) (h : Nat) (attempt : Except String Unit) :
    Connection × Bool × List String :=
  if !c.is_connection_alive then
    match attempt with
    | Except.ok _ =>
      ({ c with sock := SockState.openSock h, is_connection_alive := true }, true, [])
    | Except.error exc =>
      ({ c with sock := SockState.openSock h, is_connection_alive := false },
        false, [String.append "Caught exception socket.error : " exc])
  else
    (c, false, [])

/-- `Connection.disconnect`: if alive, close the socket, clear the
flag and return `True`; otherwise return `False` and change nothing.
A total function: neither branch raises. -/
def disconnect (c : Connection) : Connection × Bool :=
  if c.is_connection_alive then
    ({ c with sock := c.sock.close, is_connection_alive := false }, true)
  else
    (c, false)

/-- `Connection.add_listener`: `self.__listeners.add(listener)` —
set insertion, a no-op when the listener is already a member. -/
def add_listener (c : Connection) (l : Nat) : Connection :=
  if l ∈ c.listeners then c else { c with listeners := c.listeners ++ [l] }

/-- `Connection.remove_listener`: `self.__listeners.remove(listener)`.
Python `set.remove` raises `KeyError` when the element is absent;
the raised exception is modelled by `Except.error`. -/
def remove_listener (c : Connection) (l : Nat) : Except String Connection :=
  if l ∈ c.listeners then Except.ok { c with listeners := c.listeners.erase l }
  else Except.error "KeyError"

/-- UTF-8 encoding of one code point (Python `str` characters are
code points; `bytes(s, "utf-8")` encodes each in 1–4 bytes). -/
def utf8Char (c : Char) : List Nat :=
  let n := c.toNat
  if n < 0x80 then [n]
  else if n < 0x800 then [0xC0 + n / 64, 0x80 + n % 64]
  else if n < 0x10000 then
    [0xE0 + n / 4096, 0x80 + n / 64 % 64, 0x80 + n % 64]
  else
    [0xF0 + n / 262144, 0x80 + n / 4096 % 64, 0x80 + n / 64 % 64, 0x80 + n % 64]

/-- Python `bytes(s, "utf-8")` for a `str` modelled as `List Char`. -/
def utf8 (s : List Char) : List Nat := (s.map utf8Char).flatten

/-- The line delimiter `"\r\n"` as a `str`. -/
def crlfStr : List Char := ['\r', '\n']

/-- Python `message.endswith("\r\n")`: a Boolean suffix test. -/
def pyEndswith (message : List Char) : Bool := List.isSuffixOf crlfStr message

/-- `Connection.send`: encodes
`message + "\r\n" if crlf_ending and not message.endswith("\r\n") else message`
to UTF-8 and hands the bytes to `send_data`, which writes them to the
socket unchanged.  The result is the byte sequence transmitted. -/
def send (message : List Char) (crlf_ending : Bool) : List Nat :=
  utf8 (if crlf_ending && !pyEndswith message then message ++ crlfStr else message)

/-- `MessageListener`: stores the two constructor arguments
(`self.__filter = message_filter`, `self.__receive = receive`).  The
receive callback is modelled with result type `R`. -/
structure MessageListener (M R : Type) where
  message_filter : M → Bool
  receive_impl : M → R

/-- `MessageListener.accept`: `return self.__filter(message)`. -/
def MessageListener.accept {M R : Type} (l : MessageListener M R) (message : M) : Bool :=
  l.message_filter message

/-- `MessageListener.receive`: `self.__receive(message)`. -/
def MessageListener.receive {M R : Type} (l : MessageListener M R) (message : M) : R :=
  l.receive_impl message

/-- Observable calls made by `Connection.__dispatch_listeners`: an
`accept` or `receive` invocation on the listener at position `i` of
the iteration order, with the message passed to it. -/
inductive DispatchEvent (M : Type)
  | acceptCall : Nat → M → DispatchEvent M
  | receiveCall : Nat → M → DispatchEvent M
deriving DecidableEq

/-- `Connection.__dispatch_listeners`, iterating from position `i`:
`for listener in self.__listeners: if listener.accept(obj): listener.receive(obj)`.
Returns the trace of callback invocations in order. -/
def dispatchFrom {M R : Type} (i : Nat) :
    List (MessageListener M R) → M → List (DispatchEvent M)
  | [], _ => []
  | l :: rest, obj =>
    DispatchEvent.acceptCall i obj ::
      ((if l.accept obj then [DispatchEvent.receiveCall i obj] else []) ++
        dispatchFrom (i + 1) rest obj)

/-- `Connection.__dispatch_listeners` over the whole listener
iteration order. -/
def dispatch_listeners {M R : Type} (listeners : List (MessageListener M R)) (obj : M) :
    List (DispatchEvent M) :=
  dispatchFrom 0 listeners obj

/-- A listener whose callbacks may raise: `Except.error e` models a
raised exception with message `e`.  Mirrors `MessageListener`
(`self.__filter`, `self.__receive`). -/
structure ExcListener (M : Type) where
  message_filter : M → Except String Bool
  receive_impl : M → Except String Unit

/-- `MessageListener.accept` in the fallible model. -/
def ExcListener.accept {M : Type} (l : ExcListener M) (message : M) :
    Except String Bool :=
  l.message_filter message

/-- `MessageListener.receive` in the fallible model. -/
def ExcListener.receive {M : Type} (l : ExcListener M) (message : M) :
    Except String Unit :=
  l.receive_impl message

/-- `Connection.__dispatch_listeners` with fallible callbacks, from
position `i`.  The `for` body has no exception handler, so a raise in
`accept` or `receive` aborts the loop at once: the result pairs the
trace of calls actually made with the propagated exception, if any. -/
def dispatchExcFrom {M : Type} (i : Nat) :
    List (ExcListener M) → M → List (DispatchEvent M) × Option String
  | [], _ => ([], none)
  | l :: rest, obj =>
    match l.accept obj with
    | Except.error e => ([DispatchEvent.acceptCall i obj], some e)
    | Except.ok true =>
      match l.receive obj with
      | Except.error e =>
        ([DispatchEvent.acceptCall i obj, DispatchEvent.receiveCall i obj], some e)
      | Except.ok _ =>
        let out := dispatchExcFrom (i + 1) rest obj
        (DispatchEvent.acceptCall i obj :: DispatchEvent.receiveCall i obj :: out.1,
          out.2)
    | Except.ok false =>
      let out := dispatchExcFrom (i + 1) rest obj
      (DispatchEvent.acceptCall i obj :: out.1, out.2)

/-- `Connection.__dispatch_listeners` with fallible callbacks. -/
def dispatch_listeners_exc {M : Type} (listeners : List (ExcListener M)) (obj : M) :
    List (DispatchEvent M) × Option String :=
  dispatchExcFrom 0 listeners obj

/-- The `for msg in ...` body of `__listen`: dispatch each message in
turn; an exception from any dispatch propagates, skipping the rest. -/
def dispatchMsgs {M : Type} (listeners : List (ExcListener M)) :
    List M → List (DispatchEvent M) × Option String
  | [] => ([], none)
  | m :: ms =>
    match dispatch_listeners_exc listeners m with
    | (evs, some e) => (evs, some e)
    | (evs, none) =>
      let out := dispatchMsgs listeners ms
      (evs ++ out.1, out.2)

/-- `Connection.__listen` with fallible listener callbacks.  `__listen`
has no exception handler either, so an exception raised during
dispatch propagates out of the thread's target function and the
thread dies: no further reads are consumed and — since nothing resets
it — the alive flag is left `true`.  Result: final alive flag, event
trace, and the exception that escaped, if any. -/
def listenExc (listeners : List (ExcListener (List Nat))) :
    List (List Nat) → Bool → Bool × List (DispatchEvent (List Nat)) × Option String
  | _, false => (false, [], none)
  | [], true => (true, [], none)
  | data :: rest, true =>
    if data ≠ [] then
      match dispatchMsgs listeners (((splitCRLF data).take 1).map process_data) with
      | (evs, some e) => (true, evs, some e)
      | (evs, none) =>
        let out := listenExc listeners rest true
        (out.1, evs ++ out.2.1, out.2.2)
    else
      (false, [], none)

/-- A concrete listener accepting positive numbers (test fixture). -/
def posListener : MessageListener Nat Unit :=
  { message_filter := fun m => decide (0 < m), receive_impl := fun _ => () }

/-- A concrete listener rejecting everything (test fixture). -/
def noListener : MessageListener Nat Unit :=
  { message_filter := fun _ => false, receive_impl := fun _ => () }

/-- A concrete listener whose `accept` always raises (test fixture). -/
def boomListener : ExcListener (List Nat) :=
  { message_filter := fun _ => Except.error "boom", receive_impl := fun _ => Except.ok () }

/-- A concrete well-behaved listener accepting everything (test fixture). -/
def okListener : ExcListener (List Nat) :=
  { message_filter := fun _ => Except.ok true, receive_impl := fun _ => Except.ok () }

/-- A concrete alive connection with an open socket (test fixture). -/
def aliveConn : Connection :=
  { sock := SockState.openSock 0, is_connection_alive := true, listeners := [3] }

theorem splitCRLF_head (data : List Nat) :
    splitCRLF data = firstSeg data :: (splitCRLF data).tail := by
  induction data using splitCRLF.induct with
  | case1 => rfl
  | case2 rest ih => rfl
  | case3 b rest hne hnil ih => rw [hnil] at ih; exact absurd ih (by simp)
  | case4 b rest hne s ss hcons ih =>
    simp only [splitCRLF, firstSeg, hne, hcons]
    rw [hcons] at ih
    injection ih with h1 h2
    simp [h1]

theorem listen_append_nonempty (reads more : List (List Nat))
    (h : ∀ d ∈ reads, d ≠ []) :
    listen (reads ++ more) true =
      ((listen more true).1, reads.map firstSeg ++ (listen more true).2) := by
  induction reads with
  | nil => simp
  | cons d rest ih =>
    have hd : d ≠ [] := h d (by simp)
    have hrest : ∀ x ∈ rest, x ≠ [] := fun x hx => h x (by simp [hx])
    simp only [List.cons_append, listen, if_pos hd, List.append_eq]
    rw [ih hrest, splitCRLF_head d]
    simp [process_data]

theorem utf8_append (s t : List Char) : utf8 (s ++ t) = utf8 s ++ utf8 t := by
  simp [utf8]

theorem count_receive_lt {M R : Type} [DecidableEq M] (obj : M) :
    ∀ (ls : List (MessageListener M R)) (i j : Nat), j < i →
      List.count (DispatchEvent.receiveCall j obj) (dispatchFrom i ls obj) = 0 := by
  intro ls
  induction ls with
  | nil => intro i j h; simp [dispatchFrom]
  | cons l rest ih =>
    intro i j h
    have hne : i ≠ j := Nat.ne_of_gt h
    simp only [dispatchFrom, List.count_cons, List.count_append]
    rw [ih (i + 1) j (Nat.lt_succ_of_lt h)]
    by_cases hacc : l.accept obj = true
    · simp [hacc, hne, beq_iff_eq, List.count_singleton]
    · simp [hacc, beq_iff_eq]

theorem count_receive_get {M R : Type} [DecidableEq M] (obj : M) :
    ∀ (ls : List (MessageListener M R)) (k : Nat) (h : k < ls.length) (i : Nat),
      List.count (DispatchEvent.receiveCall (i + k) obj) (dispatchFrom i ls obj) =
        if (ls.get ⟨k, h⟩).accept obj then 1 else 0 := by
  intro ls
  induction ls with
  | nil => intro k h; exact absurd h (by simp)
  | cons l rest ih =>
    intro k h i
    match k with
    | 0 =>
      simp only [dispatchFrom, List.count_cons, List.count_append, Nat.add_zero,
        List.get]
      rw [count_receive_lt obj rest (i + 1) i (Nat.lt_succ_self i)]
      by_cases hacc : l.accept obj = true
      · simp [hacc, beq_iff_eq]
      · simp [hacc, beq_iff_eq]
    | k + 1 =>
      have h' : k < rest.length := Nat.lt_of_succ_lt_succ h
      have hidx : i + (k + 1) = (i + 1) + k := by omega
      have hne : (i + 1) + k ≠ i := by omega
      simp only [dispatchFrom, List.count_cons, List.count_append, List.get, hidx]
      rw [ih k h' (i + 1)]
      by_cases hacc : l.accept obj = true
      · simp [hacc, hne, beq_iff_eq]
      · simp [hacc, beq_iff_eq]

/-- Claim C1 (code bug).  The claim — and the source's own comment,
which says only the split's empty LAST element is dropped — requires
one dispatched message per complete CR-LF segment of a read, so
`b"A\r\nB\r\nC\r\n"` (`N = 3`) should yield 3 messages.  The code's
`data.split(b"\r\n")[:1]` keeps only the FIRST segment: the split
yields the 3 complete segments (plus the empty tail), yet exactly one
message, `b"A"`, is dispatched. -/
theorem framing_three_segments_dispatch_one :
    splitCRLF [65, 13, 10, 66, 13, 10, 67, 13, 10] = [[65], [66], [67], []] ∧
    listen [[65, 13, 10, 66, 13, 10, 67, 13, 10]] true = (true, [[65]]) ∧
    (listen [[65, 13, 10, 66, 13, 10, 67, 13, 10]] true).2.length = 1 := by
  decide

/-- Claim C2.  Reference behaviour of the receive loop: every
non-empty read dispatches exactly one message — `_process_data` (the
identity decode hook) applied to the bytes before the read's first
CR-LF (`firstSeg`, the whole read when no delimiter occurs); the
read's later segments are discarded and no partial segment is carried
into the next read. -/
theorem listen_one_message_per_read (reads : List (List Nat))
    (h : ∀ d ∈ reads, d ≠ []) :
    listen reads true = (true, reads.map fun d => process_data (firstSeg d)) := by
  have h2 := listen_append_nonempty reads [] h
  rw [List.append_nil] at h2
  simpa [listen, process_data] using h2

/-- Witness for C2: the two reads `b"AB"` and `b"C\r\nD\r\n"` each
dispatch one message (`b"AB"` whole, and `b"C"` with `b"D"`
discarded). -/
theorem listen_one_message_per_read_witness :
    (∀ d ∈ [[65, 66], [67, 13, 10, 68, 13, 10]], d ≠ ([] : List Nat)) ∧
    listen [[65, 66], [67, 13, 10, 68, 13, 10]] true =
      (true, [[65, 66], [67, 13, 10, 68, 13, 10]].map fun d => process_data (firstSeg d)) :=
  ⟨by decide, listen_one_message_per_read [[65, 66], [67, 13, 10, 68, 13, 10]] (by decide)⟩

/-- Claim C5.  `connect` on an alive connection and `disconnect` on a
not-alive connection are no-ops: each returns `False`, leaves the
socket, the alive flag and the listener set untouched (the whole state
record is returned unchanged), prints nothing, and — both model
functions being total — raises nothing. -/
theorem connect_alive_disconnect_dead_noop
    (c c' : Connection) (hs : Nat) (attempt : Except String Unit)
    (halive : c.is_connection_alive = true)
    (hdead : c'.is_connection_alive = false) :
    connect c hs attempt = (c, false, []) ∧ disconnect c' = (c', false) := by
  constructor
  · simp [connect, halive]
  · simp [disconnect, hdead]

/-- Witness for C5 at a concrete alive connection and the freshly
constructed (not-alive) connection. -/
theorem connect_alive_disconnect_dead_noop_witness :
    aliveConn.is_connection_alive = true ∧
    Connection.init.is_connection_alive = false ∧
    (connect aliveConn 7 (Except.ok ()) = (aliveConn, false, []) ∧
      disconnect Connection.init = (Connection.init, false)) :=
  ⟨rfl, rfl,
    connect_alive_disconnect_dead_noop aliveConn Connection.init 7 (Except.ok ()) rfl rfl⟩

/-- Claim C6.  On a not-alive connection, a `socket.error` during the
connect attempt is caught inside `connect`: the failure is reported
(the message is printed), the connection is left not-alive, and
`False` is returned; the model being a total function, no exception
reaches the caller. -/
theorem connect_failure_not_alive (c : Connection) (hs : Nat) (e : String)
    (hdead : c.is_connection_alive = false) :
    connect c hs (Except.error e) =
      ({ c with sock := SockState.openSock hs, is_connection_alive := false }, false,
        [String.append "Caught exception socket.error : " e]) ∧
    (connect c hs (Except.error e)).1.is_connection_alive = false ∧
    (connect c hs (Except.error e)).2.1 = false := by
  refine ⟨?_, ?_, ?_⟩ <;> simp [connect, hdead]

/-- Witness for C6 on the freshly constructed connection with a
concrete refused connect attempt. -/
theorem connect_failure_not_alive_witness :
    Connection.init.is_connection_alive = false ∧
    (connect Connection.init 1 (Except.error "refused") =
      ({ Connection.init with sock := SockState.openSock 1, is_connection_alive := false },
        false, [String.append "Caught exception socket.error : " "refused"]) ∧
    (connect Connection.init 1 (Except.error "refused")).1.is_connection_alive = false ∧
    (connect Connection.init 1 (Except.error "refused")).2.1 = false) :=
  ⟨rfl, connect_failure_not_alive Connection.init 1 "refused" rfl⟩

/-- Claim C7.  `disconnect` on an alive connection closes the socket
(an open handle becomes a closed one), clears the alive flag and
returns `True`. -/
theorem disconnect_alive_closes (c : Connection) (hnd : Nat)
    (halive : c.is_connection_alive = true)
    (hsock : c.sock = SockState.openSock hnd) :
    disconnect c =
      ({ c with sock := SockState.closedSock hnd, is_connection_alive := false }, true) := by
  simp [disconnect, halive, hsock, SockState.close]

/-- Witness for C7 at a concrete alive connection holding the open
socket handle 0. -/
theorem disconnect_alive_closes_witness :
    aliveConn.is_connection_alive = true ∧
    aliveConn.sock = SockState.openSock 0 ∧
    disconnect aliveConn =
      ({ aliveConn with sock := SockState.closedSock 0, is_connection_alive := false }, true) :=
  ⟨rfl, rfl, disconnect_alive_closes aliveConn 0 rfl rfl⟩

/-- Claim C9.  A zero-byte read is treated as peer-initiated closure,
not as an error: after any run of non-empty reads, an empty read makes
the loop clear the alive flag and terminate — later reads are never
consumed, no further message is dispatched, and no `disconnect` call
is involved. -/
theorem empty_read_clears_alive (reads rest : List (List Nat))
    (h : ∀ d ∈ reads, d ≠ []) :
    listen (reads ++ [] :: rest) true = (false, reads.map firstSeg) := by
  rw [listen_append_nonempty reads ([] :: rest) h]
  simp [listen]

/-- Witness for C9: the read `b"P\r\n"` followed by a zero-byte read
and a pending read that is never consumed. -/
theorem empty_read_clears_alive_witness :
    (∀ d ∈ [[80, 13, 10]], d ≠ ([] : List Nat)) ∧
    listen ([[80, 13, 10]] ++ [] :: [[81]]) true = (false, [[80, 13, 10]].map firstSeg) :=
  ⟨by decide, empty_read_clears_alive [[80, 13, 10]] [[81]] (by decide)⟩

/-- Claim C10.  `remove_listener` on a listener that is not in the
dispatch set raises (Python `set.remove` raises `KeyError`) instead of
returning as a no-op; since the raise happens before any mutation, no
updated state is produced and the dispatch set is unchanged. -/
theorem remove_listener_missing_raises (c : Connection) (l : Nat)
    (h : l ∉ c.listeners) :
    remove_listener c l = Except.error "KeyError" := by
  simp [remove_listener, h]

/-- Witness for C10: removing listener 7 from a freshly constructed
connection (empty dispatch set) raises `KeyError`. -/
theorem remove_listener_missing_raises_witness :
    7 ∉ Connection.init.listeners ∧
    remove_listener Connection.init 7 = Except.error "KeyError" :=
  ⟨by decide, remove_listener_missing_raises Connection.init 7 (by decide)⟩

/-- Claim C3.  During dispatch of a message `obj`, the listener at
any position `k` of the iteration order has `receive` invoked exactly
once when its `accept` returns true and never otherwise (its count of
`receive` calls in the dispatch trace is 1 or 0 accordingly); and
`MessageListener.accept` returns the stored filter's result unchanged
while `MessageListener.receive` calls the stored handler. -/
theorem dispatch_receive_iff_accept {M R : Type} [DecidableEq M]
    (listeners : List (MessageListener M R)) (obj : M) (k : Nat)
    (h : k < listeners.length) (l : MessageListener M R) (m : M) :
    List.count (DispatchEvent.receiveCall k obj) (dispatch_listeners listeners obj) =
      (if (listeners.get ⟨k, h⟩).accept obj then 1 else 0) ∧
    l.accept m = l.message_filter m ∧ l.receive m = l.receive_impl m := by
  refine ⟨?_, rfl, rfl⟩
  have hc := count_receive_get obj listeners k h 0
  simpa [dispatch_listeners] using hc

/-- Witness for C3: two concrete listeners and the message 5 — the
accepting listener at position 0 receives exactly once. -/
theorem dispatch_receive_iff_accept_witness :
    0 < ([posListener, noListener] : List (MessageListener Nat Unit)).length ∧
    (List.count (DispatchEvent.receiveCall 0 5)
        (dispatch_listeners [posListener, noListener] 5) =
      (if (([posListener, noListener] : List (MessageListener Nat Unit)).get
          ⟨0, by decide⟩).accept 5 then 1 else 0) ∧
    posListener.accept 5 = posListener.message_filter 5 ∧
    posListener.receive 5 = posListener.receive_impl 5) :=
  ⟨by decide,
    dispatch_receive_iff_accept [posListener, noListener] 5 0 (by decide) posListener 5⟩

/-- Counterexample to claim C4.  Listeners `[boomListener, okListener]`
and reads `b"A\r\n"`, `b"B\r\n"`: listener 0's `accept` raises on the
first message, and — there being no exception handler anywhere in the
dispatch or listen code — the only call ever made is that `accept`;
listener 1 is never invoked for the message, and no call at all
happens for the second read: one faulty listener terminates the
receive loop, refuting the claim. -/
theorem faulty_listener_stops_loop_cex :
    (listenExc [boomListener, okListener] [[65, 13, 10], [66, 13, 10]] true).2 =
      ([DispatchEvent.acceptCall 0 [65]], some "boom") ∧
    DispatchEvent.acceptCall 1 [65] ∉
      (listenExc [boomListener, okListener] [[65, 13, 10], [66, 13, 10]] true).2.1 ∧
    DispatchEvent.acceptCall 1 [66] ∉
      (listenExc [boomListener, okListener] [[65, 13, 10], [66, 13, 10]] true).2.1 ∧
    DispatchEvent.acceptCall 0 [66] ∉
      (listenExc [boomListener, okListener] [[65, 13, 10], [66, 13, 10]] true).2.1 := by
  decide

/-- Claim C4 as amended.  If the first listener's `accept` raises on a
message (or its `accept` returns true and its `receive` raises), the
exception propagates out of the dispatch and listen code: no later
listener is invoked for that message, no subsequent read is processed,
and the receive-loop thread dies with the alive flag left `true`. -/
theorem faulty_listener_exception_propagates
    (l : ExcListener (List Nat)) (rest : List (ExcListener (List Nat)))
    (data : List Nat) (reads : List (List Nat)) (e : String)
    (hd : data ≠ []) :
    (l.accept (process_data (firstSeg data)) = Except.error e →
      listenExc (l :: rest) (data :: reads) true =
        (true, [DispatchEvent.acceptCall 0 (process_data (firstSeg data))], some e)) ∧
    (l.accept (process_data (firstSeg data)) = Except.ok true →
      l.receive (process_data (firstSeg data)) = Except.error e →
      listenExc (l :: rest) (data :: reads) true =
        (true, [DispatchEvent.acceptCall 0 (process_data (firstSeg data)),
          DispatchEvent.receiveCall 0 (process_data (firstSeg data))], some e)) := by
  have hmsgs : ((splitCRLF data).take 1).map process_data =
      [process_data (firstSeg data)] := by
    rw [splitCRLF_head data]
    rfl
  constructor
  · intro hacc
    simp only [listenExc, if_pos hd, hmsgs, dispatchMsgs, dispatch_listeners_exc,
      dispatchExcFrom, hacc]
  · intro hacc hrecv
    simp only [listenExc, if_pos hd, hmsgs, dispatchMsgs, dispatch_listeners_exc,
      dispatchExcFrom, hacc, hrecv]

/-- Witness for the amended C4: the always-raising listener on the
read `b"A\r\n"` with a second read pending. -/
theorem faulty_listener_exception_propagates_witness :
    ([65, 13, 10] : List Nat) ≠ [] ∧
    boomListener.accept (process_data (firstSeg [65, 13, 10])) = Except.error "boom" ∧
    listenExc [boomListener] [[65, 13, 10], [66, 13, 10]] true =
      (true, [DispatchEvent.acceptCall 0 (process_data (firstSeg [65, 13, 10]))],
        some "boom") :=
  ⟨by decide, rfl,
    (faulty_listener_exception_propagates boomListener [] [65, 13, 10] [[66, 13, 10]]
      "boom" (by decide)).1 rfl⟩

/-- Claim C8.  With `crlf_ending = true` (the default), `send`
transmits the UTF-8 bytes of the message followed by exactly one
CR-LF: a message already ending in `"\r\n"` goes out unchanged,
any other message gets `"\r\n"` appended, the transmitted bytes always
end in CR-LF, and `send("PING")` and `send("PING\r\n")` transmit the
same bytes. -/
theorem send_crlf_ending (message : List Char) :
    (pyEndswith message = true → send message true = utf8 message) ∧
    (pyEndswith message = false → send message true = utf8 message ++ [13, 10]) ∧
    (∃ pre, send message true = pre ++ [13, 10]) ∧
    send ['P', 'I', 'N', 'G'] true = send ['P', 'I', 'N', 'G', '\r', '\n'] true ∧
    send ['P', 'I', 'N', 'G'] true = utf8 ['P', 'I', 'N', 'G', '\r', '\n'] := by
  have hcrlf : utf8 crlfStr = [13, 10] := by decide
  refine ⟨?_, ?_, ?_, by decide, by decide⟩
  · intro h
    simp [send, h]
  · intro h
    simp [send, h, utf8_append, hcrlf]
  · by_cases h : pyEndswith message = true
    · obtain ⟨pre, hpre⟩ := List.isSuffixOf_iff_suffix.mp h
      refine ⟨utf8 pre, ?_⟩
      have hsend : send message true = utf8 message := by simp [send, h]
      rw [hsend, ← hpre, utf8_append, hcrlf]
    · refine ⟨utf8 message, ?_⟩
      simp [send, h, utf8_append, hcrlf]

/-- Witness for C8 at the concrete message `"PING"` (no trailing
delimiter, so one is appended). -/
theorem send_crlf_ending_witness :
    pyEndswith ['P', 'I', 'N', 'G'] = false ∧
    send ['P', 'I', 'N', 'G'] true = utf8 ['P', 'I', 'N', 'G'] ++ [13, 10] :=
  ⟨by decide, (send_crlf_ending ['P', 'I', 'N', 'G']).2.1 (by decide)⟩

end IrcApi
